import Mathlib

/-!
Verification of the airplane_thing aggregator core against its specification.

This file shallowly embeds the Python modules of `src/aggregator/src/aggregator`
that the checked claims are about:

* `aggregator/util.py` — `ExpiringValue`, `LeakyDictionary`;
* `aggregator/mode_s/position_state.py` — `PositionState.locate` and
  `_position_from_cpr_pair`;
* `aggregator/correlator.py` — `Aircraft`, `Correlator.step`;
* `aggregator/model/icao_address.py` — `ICAOAddress`;
* `aggregator/mode_s/message.py` — `ADSBAirborneVelocityMessage.from_hex`;
* `aggregator/mode_s/ingester.py` / `aggregator/mode_s_ingester.py` —
  `ModeSIngester.step`.

Wall-clock time (Python `time.time()`, a float) is embedded as `ℚ`.  Calls into
the third-party `pyModeS` library are abstracted as explicit oracle parameters:
the embedding never invents their numeric results, it only tracks how the
code of the repository itself combines them.  Latitudes/longitudes and track angles are
carried opaquely as `ℤ` values; none of the verified claims performs arithmetic
on them, they are only stored, compared and moved around.
-/

namespace AirplaneThing
/-- Wall-clock instants and durations (Python `time.time()` floats). -/
abbrev Time := ℚ

/-- A 24-bit ICAO address value.  The correlator and position state key their
tables by this. -/
abbrev Addr := ℕ

/-! ## `aggregator/util.py` — `ExpiringValue`

```python
class ExpiringValue[T]:
    def __init__(self, expiry_secs: int):
        self._expiry_secs = expiry_secs
        self._value: T | None = None
        self._expires_after = 0

    def get(self) -> T | None:
        if self._value is None or time.time() > self._expires_after:
            return None
        return self._value

    def set(self, value: T | None) -> None:
        self._value = value
        self._expires_after = time.time() + self._expiry_secs
```
The embedding passes `now` (the value of `time.time()`) explicitly. -/

structure ExpiringValue (T : Type) where
  expirySecs : Time
  value : Option T
  expiresAfter : Time
deriving Repr, DecidableEq

/-- `ExpiringValue.__init__`: no value, `_expires_after = 0`. -/
def ExpiringValue.init (T : Type) (expirySecs : Time) : ExpiringValue T :=
  { expirySecs := expirySecs, value := none, expiresAfter := 0 }

/-- `ExpiringValue.get` at instant `now`. -/
def ExpiringValue.get {T : Type} (ev : ExpiringValue T) (now : Time) : Option T :=
  match ev.value with
  | none => none
  | some v => if now > ev.expiresAfter then none else some v

/-- `ExpiringValue.set` at instant `now`.  Note the source accepts
`value: T | None`, so the stored value is an `Option`. -/
def ExpiringValue.set {T : Type} (ev : ExpiringValue T) (now : Time) (v : Option T) :
    ExpiringValue T :=
  { ev with value := v, expiresAfter := now + ev.expirySecs }

/-! ## `aggregator/util.py` — `LeakyDictionary`

```python
class LeakyDictionary[K, V]:
    def __init__(self, expiry_secs: int): ...
    def __getitem__(self, key):                  # KeyError if absent or expired
        timestamp, value = self._underlying[key]
        if time.time() - timestamp > self._expiry_secs:
            del self._underlying[key]
            ...
            raise KeyError(key)
        return value
    def __setitem__(self, key, value):
        self._underlying[key] = (time.time(), value)
```

The embedding keeps the underlying dict as an association list with at most one
binding per key (insertion replaces the old binding, as a Python dict does).
`__getitem__` additionally deletes an expired entry as a side effect; through
`get`/`__contains__`/`values` a deleted entry and an expired one are
indistinguishable, so `get` is embedded as a pure read.

`aggregator/mode_s/position_state.py` imports this type under the name
`EphemeralMap`, which does not exist under `src/`.  Modelled from the spec:
the expiring map of spec §4.1 (per-entry TTL, lookup of an expired or missing
key fails distinctly, insertion resets the expiry of that entry) is exactly
`LeakyDictionary`, which the earlier twin of the same algorithm
(`aggregator/decoder.py`) uses with the same 648 s / 10 s TTLs; the one
embedding below serves for both names. -/

structure LeakyDictionary (K V : Type) where
  expirySecs : Time
  entries : List (K × Time × V)

/-- `LeakyDictionary.__init__`. -/
def LeakyDictionary.init (K V : Type) (expirySecs : Time) : LeakyDictionary K V :=
  { expirySecs := expirySecs, entries := [] }

/-- The raw `(timestamp, value)` binding stored for a key, if any. -/
def LeakyDictionary.lookup {K V : Type} [DecidableEq K] (m : LeakyDictionary K V) (k : K) :
    Option (Time × V) :=
  (m.entries.find? (fun e => e.1 = k)).map (fun e => e.2)

/-- `try: m[k] except KeyError: ...` at instant `now`: the value if the binding
exists and has not expired (`now - timestamp > expiry_secs` is the expiry
test), otherwise `none`. -/
def LeakyDictionary.get {K V : Type} [DecidableEq K] (m : LeakyDictionary K V) (now : Time)
    (k : K) : Option V :=
  match m.lookup k with
  | none => none
  | some (ts, v) => if now - ts > m.expirySecs then none else some v

/-- `m[k] = v` at instant `now`: (re)binds `k` to `(now, v)`. -/
def LeakyDictionary.set {K V : Type} [DecidableEq K] (m : LeakyDictionary K V) (now : Time)
    (k : K) (v : V) : LeakyDictionary K V :=
  { m with entries := (k, now, v) :: m.entries.filter (fun e => ¬ e.1 = k) }

/-- Mutate the stored object for `k` in place (Python reference semantics):
the timestamp of the binding is not refreshed. -/
def LeakyDictionary.modifyValue {K V : Type} [DecidableEq K] (m : LeakyDictionary K V) (k : K)
    (f : V → V) : LeakyDictionary K V :=
  { m with entries := m.entries.map (fun e => if e.1 = k then (e.1, e.2.1, f e.2.2) else e) }

/-! ## `aggregator/model/icao_address.py` — `ICAOAddress`

```python
class ICAOAddress:
    MAX = 2**24 - 1
    MIN = 0
    def __init__(self, value: str | int) -> None:
        if isinstance(value, str):
            value = int(value, 16)
        if ICAOAddress.MIN <= value <= ICAOAddress.MAX:
            self._value = value
        else:
            raise ValueError("initializing value out of range")
    def __eq__(self, other): ...        # see ICAOAddress.beq below
    def __str__(self) -> str:
        return f"{self._value:06X}"
```
Construction is fallible (`ValueError`), embedded as `Option`. -/

/-- Value of a single hexadecimal digit character; `none` if the character is
not a hex digit.  (`int(·, 16)` accepts both cases.) -/
def hexDigitVal (c : Char) : Option ℕ :=
  if '0' ≤ c ∧ c ≤ '9' then some (c.toNat - 48)
  else if 'A' ≤ c ∧ c ≤ 'F' then some (c.toNat - 55)
  else if 'a' ≤ c ∧ c ≤ 'f' then some (c.toNat - 87)
  else none

/-- Continuation of hex parsing after at least one digit has been read.
Python allows a single `_` between digits. -/
def parseHexCore : List Char → ℕ → Option ℕ
  | [], acc => some acc
  | c :: cs, acc =>
      if c = '_' then
        match cs with
        | [] => none
        | c2 :: cs2 =>
            match hexDigitVal c2 with
            | some d => parseHexCore cs2 (16 * acc + d)
            | none => none
      else
        match hexDigitVal c with
        | some d => parseHexCore cs (16 * acc + d)
        | none => none

/-- Hex parsing of a digit group: at least one digit is required. -/
def parseHexStart : List Char → Option ℕ
  | [] => none
  | c :: cs =>
      match hexDigitVal c with
      | some d => parseHexCore cs d
      | none => none

/-- Characters `int` treats as surrounding whitespace. -/
def isPySpace (c : Char) : Bool :=
  c = ' ' ∨ c = '\t' ∨ c = '\n' ∨ c = '\x0b' ∨ c = '\x0c' ∨ c = '\r'

/-- Drop an optional `0x`/`0X` prefix. -/
def stripHexMarker : List Char → List Char
  | c0 :: c1 :: cs => if c0 = '0' ∧ (c1 = 'x' ∨ c1 = 'X') then cs else c0 :: c1 :: cs
  | cs => cs

/-- Sign handling of `int(·, 16)` after whitespace stripping. -/
def pyIntSigned : List Char → Option ℤ
  | [] => none
  | c :: cs =>
      if c = '-' then (parseHexStart (stripHexMarker cs)).map (fun n => -(n : ℤ))
      else if c = '+' then (parseHexStart (stripHexMarker cs)).map (fun n => (n : ℤ))
      else (parseHexStart (stripHexMarker (c :: cs))).map (fun n => (n : ℤ))

/-- `int(s, 16)`: optional surrounding whitespace, optional sign, optional
`0x` prefix, then hex digits possibly separated by single underscores.
Returns `none` where Python raises `ValueError`.  (Python additionally permits
an underscore directly after the `0x` prefix; no checked claim exercises
that corner.) -/
def pyIntBase16 (s : String) : Option ℤ :=
  pyIntSigned (((s.data.dropWhile isPySpace).reverse.dropWhile isPySpace).reverse)

structure ICAOAddress where
  value : ℕ
deriving Repr, DecidableEq

def ICAOAddress.MAX : ℕ := 2 ^ 24 - 1

def ICAOAddress.MIN : ℕ := 0

/-- `ICAOAddress(value)` for an `int` argument: in-range check, else
`ValueError`. -/
def ICAOAddress.fromValue (v : ℤ) : Option ICAOAddress :=
  if (ICAOAddress.MIN : ℤ) ≤ v ∧ v ≤ (ICAOAddress.MAX : ℤ) then some ⟨v.toNat⟩ else none

/-- `ICAOAddress(value)` for a `str` argument: `value = int(value, 16)` (a
parse failure propagates as `ValueError`), then the same in-range check. -/
def ICAOAddress.fromString (s : String) : Option ICAOAddress :=
  (pyIntBase16 s).bind ICAOAddress.fromValue

/-- The uppercase hexadecimal digit character for `d < 16`. -/
def hexDigitUpper (d : ℕ) : Char :=
  if d < 10 then Char.ofNat (48 + d) else Char.ofNat (55 + d)

/-- `ICAOAddress.__str__`, i.e. `f"{self._value:06X}"`.  Both constructors
enforce `_value ≤ MAX < 16^6`, where the zero-padded form is exactly the six
uppercase hex digits written here. -/
def ICAOAddress.str (a : ICAOAddress) : String :=
  String.mk [hexDigitUpper (a.value / 16 ^ 5 % 16), hexDigitUpper (a.value / 16 ^ 4 % 16),
    hexDigitUpper (a.value / 16 ^ 3 % 16), hexDigitUpper (a.value / 16 ^ 2 % 16),
    hexDigitUpper (a.value / 16 % 16), hexDigitUpper (a.value % 16)]

/-- The Python values an `ICAOAddress` may be compared against: another
address, an `int`, a `str`, or any other object. -/
inductive PyValue where
  | addr (a : ICAOAddress)
  | int (n : ℤ)
  | str (s : String)
  | other
deriving Repr, DecidableEq

/-- `ICAOAddress.__eq__`:

```python
if isinstance(other, ICAOAddress): return self._value == other._value
if isinstance(other, int): return self._value == other
if isinstance(other, str):
    try:
        return self._value == int(other, 16)
    except ValueError:
        return False
return False
```
Total by construction: the only raising operation, `int(other, 16)`, is
guarded by the `try`/`except` embedded in the `none` branch. -/
def ICAOAddress.beq (a : ICAOAddress) (o : PyValue) : Bool :=
  match o with
  | .addr b => a.value = b.value
  | .int n => (a.value : ℤ) = n
  | .str s =>
      match pyIntBase16 s with
      | some n => (a.value : ℤ) = n
      | none => false
  | .other => false

/-- A character is one of the six-uppercase-hex-digit alphabet. -/
def isUpperHexDigit (c : Char) : Bool :=
  ('0' ≤ c ∧ c ≤ '9') ∨ ('A' ≤ c ∧ c ≤ 'F')

/-! ## `aggregator/model/position.py` — `Position` -/

/-- A longitude/latitude pair.  The floats are carried opaquely as `ℤ`; no
claim computes with them. -/
structure Position where
  longitude : ℤ
  latitude : ℤ
deriving Repr, DecidableEq

/-- `Position.from_lat_lon`: the tuple is `(latitude, longitude)`. -/
def Position.fromLatLon (p : ℤ × ℤ) : Position :=
  { longitude := p.2, latitude := p.1 }

/-- Python 3 `round` (half to even) on a rational, as used in
`int(round(time.time()))`. -/
def pyRound (t : ℚ) : ℤ :=
  let f := ⌊t⌋
  let r := t - (f : ℚ)
  if r > 1 / 2 then f + 1
  else if r < 1 / 2 then f
  else if 2 ∣ f then f else f + 1

/-! ## `aggregator/mode_s/position_state.py` — `PositionState`

```python
class PositionState:
    def __init__(self, receiver_position):
        ...
        self._prior_positions = EphemeralMap[ICAOAddress, Position](648)
        self._prior_cpr_msgs = (EphemeralMap...(10), EphemeralMap...(10))

    def locate(self, icao_address, msg_hex):
        try:
            ref_pos = self._prior_positions[icao_address]
        except KeyError:
            position = self._position_from_cpr_pair(icao_address, msg_hex)
        else:
            position = Position.from_lat_lon(
                pyModeS.adsb.position_with_ref(msg_hex, ref_pos.latitude, ref_pos.longitude))
        if position is not None:
            self._prior_positions[icao_address] = position
        return position

    def _position_from_cpr_pair(self, icao_address, msg_hex):
        timestamp = int(round(time.time()))
        odd_even_flag = pyModeS.adsb.oe_flag(msg_hex)
        try:
            prior_timestamp, prior_msg = self._prior_cpr_msgs[odd_even_flag ^ 1][icao_address]
        except KeyError:
            self._prior_cpr_msgs[odd_even_flag][icao_address] = (timestamp, msg_hex)
            return None
        if odd_even_flag == 0:
            msg0, msg1 = msg_hex, prior_msg ; t0, t1 = timestamp, prior_timestamp
        else:
            msg0, msg1 = prior_msg, msg_hex ; t0, t1 = prior_timestamp, timestamp
        try:
            lat_lon = pyModeS.adsb.position(msg0, msg1, t0, t1,
                self._receiver_latitude, self._receiver_longitude)
        except RuntimeError as exc:
            raise DecodingError(...) from exc
        return Position.from_lat_lon(lat_lon) if lat_lon is not None else None
```

The `pyModeS` CPR math is abstracted as the oracle record `PyAdsb`:
`oeFlag` reads the parity bit of a message, `positionWithRef` locally decodes
one message against a reference, and `position` globally decodes a
complementary pair (raising `RuntimeError`, embedded as `Except.error`, for a
surface pair without a receiver reference, and returning `None` when the pair
cannot be combined). -/

structure PyAdsb where
  oeFlag : String → ℕ
  positionWithRef : String → ℤ → ℤ → ℤ × ℤ
  position : String → String → ℤ → ℤ → Option ℤ → Option ℤ → Except String (Option (ℤ × ℤ))

structure PositionState where
  receiverLongitude : Option ℤ
  receiverLatitude : Option ℤ
  priorPositions : LeakyDictionary Addr Position
  priorCprMsgsEven : LeakyDictionary Addr (ℤ × String)
  priorCprMsgsOdd : LeakyDictionary Addr (ℤ × String)

/-- `PositionState.__init__`: TTL 648 s for prior positions, 10 s per parity
slot of pending CPR messages. -/
def PositionState.init (receiverPosition : Option Position) : PositionState :=
  { receiverLongitude := receiverPosition.map Position.longitude
    receiverLatitude := receiverPosition.map Position.latitude
    priorPositions := LeakyDictionary.init Addr Position 648
    priorCprMsgsEven := LeakyDictionary.init Addr (ℤ × String) 10
    priorCprMsgsOdd := LeakyDictionary.init Addr (ℤ × String) 10 }

/-- `self._prior_cpr_msgs[i][addr]`, read at `now`.  Python indexes a 2-tuple
(index 0 = even, index 1 = odd); the claims only ever index with the 0/1
result of `oe_flag` or its xor. -/
def PositionState.cprGet (s : PositionState) (i : ℕ) (now : Time) (a : Addr) :
    Option (ℤ × String) :=
  if i = 0 then s.priorCprMsgsEven.get now a else s.priorCprMsgsOdd.get now a

/-- `self._prior_cpr_msgs[i][addr] = v` at `now`. -/
def PositionState.cprSet (s : PositionState) (i : ℕ) (now : Time) (a : Addr)
    (v : ℤ × String) : PositionState :=
  if i = 0 then { s with priorCprMsgsEven := s.priorCprMsgsEven.set now a v }
  else { s with priorCprMsgsOdd := s.priorCprMsgsOdd.set now a v }

/-- The `msg0/msg1/t0/t1` ordering of `_position_from_cpr_pair`: index 0 is
the even message. -/
def cprOrder (flag : ℕ) (curMsg : String) (curTs : ℤ) (priorMsg : String) (priorTs : ℤ) :
    String × String × ℤ × ℤ :=
  if flag = 0 then (curMsg, priorMsg, curTs, priorTs) else (priorMsg, curMsg, priorTs, curTs)

/-- `PositionState._position_from_cpr_pair`. -/
def PositionState.positionFromCprPair (pm : PyAdsb) (s : PositionState) (now : Time)
    (a : Addr) (msg : String) : Except String (Option Position × PositionState) :=
  let timestamp := pyRound now
  let flag := pm.oeFlag msg
  match s.cprGet (flag ^^^ 1) now a with
  | none => .ok (none, s.cprSet flag now a (timestamp, msg))
  | some (priorTs, priorMsg) =>
      let o := cprOrder flag msg timestamp priorMsg priorTs
      match pm.position o.1 o.2.1 o.2.2.1 o.2.2.2 s.receiverLatitude s.receiverLongitude with
      | .error _ => .error "cant decode surface position without reference position"
      | .ok none => .ok (none, s)
      | .ok (some latLon) => .ok (some (Position.fromLatLon latLon), s)

/-- `PositionState.locate`. -/
def PositionState.locate (pm : PyAdsb) (s : PositionState) (now : Time) (a : Addr)
    (msg : String) : Except String (Option Position × PositionState) :=
  match s.priorPositions.get now a with
  | some refPos =>
      let p := Position.fromLatLon (pm.positionWithRef msg refPos.latitude refPos.longitude)
      .ok (some p, { s with priorPositions := s.priorPositions.set now a p })
  | none =>
      match s.positionFromCprPair pm now a msg with
      | .error e => .error e
      | .ok (none, s1) => .ok (none, s1)
      | .ok (some p, s1) =>
          .ok (some p, { s1 with priorPositions := s1.priorPositions.set now a p })

/-- A concrete pyModeS oracle for the C1 witness: `"E0"` is the even-parity
message, everything else is odd, and the global CPR combination succeeds at
`(lat, lon) = (5, 6)`. -/
def c1Oracle : PyAdsb :=
  { oeFlag := fun m => if m = "E0" then 0 else 1
    positionWithRef := fun _ _ _ => (0, 0)
    position := fun _ _ _ _ _ _ => .ok (some (5, 6)) }

/-! ## `aggregator/mode_s/message.py` — decoded messages

The closed set of message variants consumed by the correlator.  Numeric
payloads (altitudes, speeds, track angles, coordinates) are carried opaquely
as `ℤ`; the verified claims never compute with them. -/

/-- `WakeCategory`, keyed by `(type_code, category)`. -/
inductive WakeCategory where
  | surfaceEmergencyVehicle | surfaceServiceVehicle | groundObstruction
  | glider | lighterThanAir | parachutist | ultralight | uav | spaceVehicle
  | light | medium1 | medium2 | highVortex | heavy | highPerfHighSpeed | rotocraft
deriving Repr, DecidableEq

/-- `AltitudeType`. -/
inductive AltitudeType where
  | baroPressure
  | gnss
deriving Repr, DecidableEq

/-- The `ModeSMessage` subclasses, as a closed sum.  The airborne-position
variant carries the `tuple[float, float] | None` position the correlator
stores. -/
inductive ModeSMessage where
  | srAltitude (icaoAddress : Addr) (baroPressureAltitude : ℤ)
  | srIdentity (icaoAddress : Addr) (identityCode : String)
  | adsbIdentification (icaoAddress : Addr) (callsign : String) (wakeCategory : WakeCategory)
  | adsbAirbornePosition (icaoAddress : Addr) (altitude : ℤ) (altitudeType : AltitudeType)
      (position : Option (ℤ × ℤ))
  | adsbAirborneVelocity (icaoAddress : Addr) (groundSpeed : ℤ) (track : ℤ)
      (verticalSpeed : ℤ)
  | commBReply (icaoAddress : Addr) (altitude : Option ℤ) (identityCode : Option String)
      (callsign : Option String)
deriving Repr, DecidableEq

/-- The 4-tuple returned by `pyModeS.adsb.airborne_velocity`:
`(speed, track, vertical_speed, speed_type)`, each of the first three possibly
`None`. -/
structure VelocityTuple where
  speed : Option ℤ
  track : Option ℤ
  verticalSpeed : Option ℤ
  speedType : String
deriving Repr, DecidableEq

/-- `ADSBAirborneVelocityMessage.from_hex`:

```python
velocity = pyModeS.adsb.airborne_velocity(msg_hex)
if velocity is None: raise DecodingError("failed to decode airborne velocity")
if velocity[3] != "GS": raise DecodingError("... is not ground speed")
if velocity[0] is None: raise DecodingError("... is missing ground speed")
if velocity[1] is None: raise DecodingError("... is missing track")
if velocity[2] is None: raise DecodingError("... is missing vertical speed")
return cls(_icao_address(msg_hex), velocity[0], velocity[1], velocity[2])
```
`velocity` is the pyModeS result for the message and `icaoRes` the result of
`_icao_address(msg_hex)` (itself a possible `DecodingError`), both passed in
as the oracle values for this message. -/
def airborneVelocityFromHex (icaoRes : Except String Addr)
    (velocity : Option VelocityTuple) : Except String ModeSMessage :=
  match velocity with
  | none => .error "failed to decode airborne velocity"
  | some v =>
      if v.speedType ≠ "GS" then .error "airborne velocity message is not ground speed"
      else match v.speed with
        | none => .error "airborne velocity message is missing ground speed"
        | some gs =>
            match v.track with
            | none => .error "airborne velocity message is missing track"
            | some trk =>
                match v.verticalSpeed with
                | none => .error "airborne velocity message is missing vertical speed"
                | some vs =>
                    icaoRes.map (fun a => .adsbAirborneVelocity a gs trk vs)

/-! ## `aggregator/swim_ingester.py` — `Flight` (as consumed by the
correlator; its own fields never expire). -/

structure Flight where
  icaoAddress : Option Addr
  callsign : Option String
  registration : Option String
  icaoType : String
  wakeCategory : Option String
  cid : String
  departure : String
  route : String
  arrival : String
  assignedCruiseAltitude : Option ℤ
deriving Repr, DecidableEq

/-! ## `aggregator/correlator.py` — `Aircraft`

```python
class Aircraft:
    def __init__(self, icao_address, expiry_secs: int = 10):
        self.icao_address = icao_address
        self._callsign = ExpiringValue[str](60 * 5)
        self._squawk = ExpiringValue[str](60 * 5)
        self._altitude = ExpiringValue[int](expiry_secs)
        self._position = ExpiringValue[tuple[float, float]](expiry_secs)
        self._ground_speed = ExpiringValue[int](expiry_secs)
        self._track = ExpiringValue[float](expiry_secs)
        self._vertical_speed = ExpiringValue[int](expiry_secs)
        self.flight_plan: Flight | None = None
```
Property setters call `ExpiringValue.set`. -/

structure Aircraft where
  icaoAddress : Addr
  callsign : ExpiringValue String
  squawk : ExpiringValue String
  altitude : ExpiringValue ℤ
  position : ExpiringValue (ℤ × ℤ)
  groundSpeed : ExpiringValue ℤ
  track : ExpiringValue ℤ
  verticalSpeed : ExpiringValue ℤ
  flightPlan : Option Flight

/-- The default `expiry_secs` of `Aircraft.__init__` (the correlator always
constructs aircraft with it). -/
def Aircraft.defaultExpirySecs : Time := 10

/-- `ExpiringValue[str](60 * 5)` for `_callsign`. -/
def Aircraft.callsignExpirySecs : Time := 60 * 5

/-- `ExpiringValue[str](60 * 5)` for `_squawk`. -/
def Aircraft.squawkExpirySecs : Time := 60 * 5

/-- `Aircraft.__init__` at the default `expiry_secs`. -/
def Aircraft.init (a : Addr) : Aircraft :=
  { icaoAddress := a
    callsign := ExpiringValue.init String Aircraft.callsignExpirySecs
    squawk := ExpiringValue.init String Aircraft.squawkExpirySecs
    altitude := ExpiringValue.init ℤ Aircraft.defaultExpirySecs
    position := ExpiringValue.init (ℤ × ℤ) Aircraft.defaultExpirySecs
    groundSpeed := ExpiringValue.init ℤ Aircraft.defaultExpirySecs
    track := ExpiringValue.init ℤ Aircraft.defaultExpirySecs
    verticalSpeed := ExpiringValue.init ℤ Aircraft.defaultExpirySecs
    flightPlan := none }

/-- The `match message` merge block of `Correlator.step` for the decoded
Mode S message variants (the `Flight` arm is handled in `Correlator.step`
itself because it also touches the side table). -/
def Aircraft.merge (ac : Aircraft) (now : Time) (m : ModeSMessage) : Aircraft :=
  match m with
  | .srAltitude _ alt => { ac with altitude := ac.altitude.set now (some alt) }
  | .srIdentity _ code => { ac with squawk := ac.squawk.set now (some code) }
  | .adsbIdentification _ cs _ => { ac with callsign := ac.callsign.set now (some cs) }
  | .adsbAirbornePosition _ alt ty pos =>
      let ac1 := if ty = AltitudeType.baroPressure
        then { ac with altitude := ac.altitude.set now (some alt) } else ac
      { ac1 with position := ac1.position.set now pos }
  | .adsbAirborneVelocity _ gs trk vs =>
      { ac with
        groundSpeed := ac.groundSpeed.set now (some gs)
        track := ac.track.set now (some trk)
        verticalSpeed := ac.verticalSpeed.set now (some vs) }
  | .commBReply _ alt code cs =>
      let ac1 := match alt with
        | some a2 => { ac with altitude := ac.altitude.set now (some a2) }
        | none => ac
      let ac2 := match code with
        | some c2 => { ac1 with squawk := ac1.squawk.set now (some c2) }
        | none => ac1
      match cs with
      | some c3 => { ac2 with callsign := ac2.callsign.set now (some c3) }
      | none => ac2

/-! ## `aggregator/correlator.py` — `Correlator`

```python
class Correlator(Runnable):
    def __init__(self, update_cb):
        ...
        self.aircraft: LeakyDictionary[str, Aircraft] = LeakyDictionary(10)
        self.flights: dict[str, Flight] = {}

    async def step(self) -> None:
        message = await self.in_queue.get()
        if message.icao_address is None:
            return
        try:
            aircraft = self.aircraft[message.icao_address]
        except KeyError:
            aircraft = Aircraft(message.icao_address)
            aircraft.flight_plan = self.flight_plans.get(message.icao_address)   # (!)
            if aircraft.flight_plan:
                aircraft.callsign = aircraft.flight_plan.callsign
        match message:
            ...merge arms (Aircraft.merge above)...
            case Flight():
                aircraft.flight_plan = message
                self.flight_plans[message.icao_address] = message                # (!)
            case _:
                log(...)
        self.aircraft[message.icao_address] = aircraft
        await self._update_cb(self.aircraft.values())
```

`__init__` defines the side table as `self.flights`, but `step` reads and
writes `self.flight_plans`, which is never defined on the object: the two
lines marked `(!)` raise `AttributeError` at run time.  The embedding models
an uncaught Python exception as a `some PyError` outcome carrying the state as
mutated up to the raise (Python mutations on the looked-up `Aircraft` object
act in place on the table entry). -/

/-- One queue item: a decoded message or a SWIM flight record. -/
inductive QueueItem where
  | msg (m : ModeSMessage)
  | flight (f : Flight)
deriving Repr, DecidableEq

/-- `message.icao_address` (always present on decoded messages, optional on
flights). -/
def QueueItem.icaoAddress : QueueItem → Option Addr
  | .msg (.srAltitude a _) => some a
  | .msg (.srIdentity a _) => some a
  | .msg (.adsbIdentification a _ _) => some a
  | .msg (.adsbAirbornePosition a _ _ _) => some a
  | .msg (.adsbAirborneVelocity a _ _ _) => some a
  | .msg (.commBReply a _ _ _) => some a
  | .flight f => f.icaoAddress

/-- An uncaught Python exception. -/
inductive PyError where
  | attributeError (attr : String)
deriving Repr, DecidableEq

structure Correlator where
  aircraft : LeakyDictionary Addr Aircraft
  flights : List (Addr × Flight)

/-- `LeakyDictionary(10)`: the live-table inactivity window. -/
def Correlator.aircraftExpirySecs : Time := 10

/-- `Correlator.__init__` (the update callback is not part of the state). -/
def Correlator.init : Correlator :=
  { aircraft := LeakyDictionary.init Addr Aircraft Correlator.aircraftExpirySecs
    flights := [] }

/-- `Correlator.step` on one dequeued item at instant `now`.  Returns the
resulting state together with `some e` when the step raises an uncaught
exception `e` (leaving the state as mutated so far), or `none` when it runs to
completion. -/
def Correlator.step (c : Correlator) (now : Time) (item : QueueItem) :
    Correlator × Option PyError :=
  match item.icaoAddress with
  | none => (c, none)
  | some a =>
      match c.aircraft.get now a with
      | none =>
          -- A fresh Aircraft is built, then `self.flight_plans.get(...)`
          -- raises AttributeError before anything is stored.
          (c, some (.attributeError "flight_plans"))
      | some ac =>
          match item with
          | .flight f =>
              -- `aircraft.flight_plan = message` mutates the live table entry
              -- in place; `self.flight_plans[...] = message` then raises.
              ({ c with aircraft :=
                  c.aircraft.modifyValue a (fun x => { x with flightPlan := some f }) },
                some (.attributeError "flight_plans"))
          | .msg m =>
              ({ c with aircraft := c.aircraft.set now a (ac.merge now m) }, none)

/-- A one-entry live table holding a freshly created aircraft, for the C3
witness. -/
def c3State : Correlator :=
  { Correlator.init with
    aircraft := Correlator.init.aircraft.set 0 0xAB0001 (Aircraft.init 0xAB0001) }

/-- An aircraft whose position slot holds `(1, 2)`, set at `t = 0`, for the C9
witness. -/
def c9Aircraft : Aircraft :=
  { Aircraft.init 0xAB0002 with
    position := (Aircraft.init 0xAB0002).position.set 0 (some (1, 2)) }

/-- A one-entry live table holding `c9Aircraft`, for the C9 witness. -/
def c9State : Correlator :=
  { Correlator.init with aircraft := Correlator.init.aircraft.set 0 0xAB0002 c9Aircraft }

/-- A concrete SWIM flight record for the C4 failing input. -/
def c4Flight : Flight :=
  { icaoAddress := some 0xA00001
    callsign := some "UAL123"
    registration := none
    icaoType := "B738"
    wakeCategory := none
    cid := "001"
    departure := "KSFO"
    route := "DCT"
    arrival := "KLAX"
    assignedCruiseAltitude := some 35000 }

/-! ## `aggregator/mode_s/ingester.py` — `ModeSIngester.step`

```python
async def step(self) -> None:
    line = await self._reader.readline()
    if not line:
        log("connection closed unexpectedly"); await self.setup(); return
    if not (line[0] == 0x2A and line[-2] == 0x3B):
        log(f"missing framing bytes: {line!r}"); return
    try:
        decoded = self._decode(str(line[1:-2], encoding="ASCII"))
    except UnicodeDecodeError as exc:
        log(f"not 7-bit ASCII: ..."); return
    except DecodingError as exc:
        error = str(exc)
        if error not in self._errors_seen:
            log(f"decoding error: ... (future errors of this kind will be suppressed)")
            self._errors_seen.add(error)
        return
    try:
        self._queue.put_nowait(decoded)
    except asyncio.QueueShutDown:
        pass
```
(`aggregator/mode_s_ingester.py` has the identical error-handling structure
with `self._decoder.decode` in place of `self._decode`.)

The embedding exposes the per-step observable effect.  Error texts are
embedded without ASCII apostrophes.  Two corners outside every claim are not
modelled: a one-byte line starting `*` (Python raises `IndexError` on
`line[-2]`) and a payload that is not a hex string at all (Python raises an
uncaught plain `ValueError` inside `pyModeS.df`). -/

/-- `pyModeS.common.df`: the first five bits of the message, capped at 24.
Non-hex digit characters contribute 0 here (see the note above). -/
def pyDf : List Char → ℕ
  | c0 :: c1 :: _ =>
      min (((hexDigitVal c0).getD 0 * 16 + (hexDigitVal c1).getD 0) / 8) 24
  | [c0] => min ((hexDigitVal c0).getD 0) 24
  | [] => 0

/-- Oracles for the per-variant `from_hex` constructors reached on known
downlink formats (their results depend on pyModeS bit extraction, not modelled
here) and for `pyModeS.adsb.typecode`. -/
structure DecodeOracles where
  typecode : List Char → ℤ
  srAltitude : List Char → Except String ModeSMessage
  srIdentity : List Char → Except String ModeSMessage
  adsbIdentification : List Char → Except String ModeSMessage
  adsbAirbornePosition : List Char → Except String ModeSMessage
  adsbAirborneVelocity : List Char → Except String ModeSMessage
  commB : List Char → Except String ModeSMessage

/-- `ModeSIngester._decode`: dispatch on downlink format and, for format 17,
on type code. -/
def decodeDispatch (o : DecodeOracles) (msg : List Char) : Except String ModeSMessage :=
  match pyDf msg with
  | 4 => o.srAltitude msg
  | 5 => o.srIdentity msg
  | 17 =>
      let tc := o.typecode msg
      if 1 ≤ tc ∧ tc ≤ 4 then o.adsbIdentification msg
      else if 9 ≤ tc ∧ tc ≤ 18 then o.adsbAirbornePosition msg
      else if tc = 19 then o.adsbAirborneVelocity msg
      else if 20 ≤ tc ∧ tc ≤ 22 then o.adsbAirbornePosition msg
      else .error ("dont know how to decode ADS-B type code " ++ toString tc)
  | 20 => o.commB msg
  | 21 => o.commB msg
  | df => .error ("dont know how to decode downlink format " ++ toString df)

/-- `self._errors_seen`. -/
structure IngesterState where
  errorsSeen : List String
deriving Repr, DecidableEq

/-- The observable outcome of one ingester step. -/
inductive IngestEffect where
  | reconnect
  | badFraming
  | notAscii
  | errorLogged (text : String)
  | errorSuppressed (text : String)
  | delivered (m : ModeSMessage)
deriving Repr, DecidableEq

/-- `line[1:-2]`: the message text between the `*` marker and the `;`
marker/newline. -/
def msgText (line : List Char) : List Char := ((line.drop 1).dropLast).dropLast

/-- `line[0] == 0x2A and line[-2] == 0x3B`. -/
def framingOk (line : List Char) : Bool :=
  line.head? = some '*' ∧ line.get? (line.length - 2) = some ';'

/-- `str(line[1:-2], encoding="ASCII")` succeeds. -/
def asciiOk (line : List Char) : Bool := (msgText line).all (fun c => c.toNat ≤ 127)

/-- One `ModeSIngester.step` on the next line, given the decoder. -/
def ingestStep (decode : List Char → Except String ModeSMessage) (st : IngesterState)
    (line : List Char) : IngesterState × IngestEffect :=
  if line.isEmpty then (st, .reconnect)
  else if ¬ framingOk line then (st, .badFraming)
  else if ¬ asciiOk line then (st, .notAscii)
  else match decode (msgText line) with
    | .ok m => (st, .delivered m)
    | .error e =>
        if e ∈ st.errorsSeen then (st, .errorSuppressed e)
        else (⟨e :: st.errorsSeen⟩, .errorLogged e)

/-- Oracle stub for the C8 counterexample; both counterexample lines fail on
an unknown downlink format before any oracle is consulted. -/
def c8Oracles : DecodeOracles :=
  { typecode := fun _ => 0
    srAltitude := fun _ => .error "unused"
    srIdentity := fun _ => .error "unused"
    adsbIdentification := fun _ => .error "unused"
    adsbAirbornePosition := fun _ => .error "unused"
    adsbAirborneVelocity := fun _ => .error "unused"
    commB := fun _ => .error "unused" }
theorem ExpiringValue.get_set {T : Type} (ev : ExpiringValue T) (t u : Time) (v : T) :
    (ev.set t (some v)).get u = if u > t + ev.expirySecs then none else some v := rfl

theorem ExpiringValue.get_set_none {T : Type} (ev : ExpiringValue T) (t u : Time) :
    (ev.set t none).get u = none := rfl

theorem LeakyDictionary.lookup_set_self {K V : Type} [DecidableEq K]
    (m : LeakyDictionary K V) (now : Time) (k : K) (v : V) :
    (m.set now k v).lookup k = some (now, v) := by
  simp [LeakyDictionary.set, LeakyDictionary.lookup, List.find?]

theorem LeakyDictionary.get_set_self {K V : Type} [DecidableEq K]
    (m : LeakyDictionary K V) (now t : Time) (k : K) (v : V) :
    (m.set now k v).get t k = if t - now > m.expirySecs then none else some v := by
  unfold LeakyDictionary.get
  rw [LeakyDictionary.lookup_set_self]
  rfl

theorem LeakyDictionary.lookup_set_other {K V : Type} [DecidableEq K]
    (m : LeakyDictionary K V) (now : Time) (k k' : K) (v : V) (h : k' ≠ k) :
    (m.set now k v).lookup k' = m.lookup k' := by
  unfold LeakyDictionary.set LeakyDictionary.lookup
  rw [List.find?_cons_of_neg _ (by simpa using h.symm)]
  congr 1
  induction m.entries with
  | nil => rfl
  | cons e es ih =>
      by_cases he : e.1 = k
      · rw [List.filter_cons_of_neg (by simpa using he),
          List.find?_cons_of_neg _ (by simpa using fun h2 => h (h2.symm.trans he)), ih]
      · rw [List.filter_cons_of_pos (by simpa using he)]
        by_cases he' : e.1 = k'
        · rw [List.find?_cons_of_pos _ (by simpa using he'),
            List.find?_cons_of_pos _ (by simpa using he')]
        · rw [List.find?_cons_of_neg _ (by simpa using he'),
            List.find?_cons_of_neg _ (by simpa using he'), ih]

theorem LeakyDictionary.get_set_other {K V : Type} [DecidableEq K]
    (m : LeakyDictionary K V) (now t : Time) (k k' : K) (v : V) (h : k' ≠ k) :
    (m.set now k v).get t k' = m.get t k' := by
  unfold LeakyDictionary.get
  rw [LeakyDictionary.lookup_set_other _ _ _ _ _ h]
  rfl

/-- Once a key reads as absent, it keeps reading as absent at any later instant
(with no intervening `set`): expiry is monotone in time. -/
theorem LeakyDictionary.get_none_mono {K V : Type} [DecidableEq K]
    (m : LeakyDictionary K V) (t t' : Time) (k : K) (h : m.get t k = none)
    (hle : t ≤ t') : m.get t' k = none := by
  unfold LeakyDictionary.get at *
  cases hl : m.lookup k with
  | none => simp
  | some tv =>
      rw [hl] at h
      obtain ⟨ts, v⟩ := tv
      simp only at h ⊢
      split at h
      · next hgt => rw [if_pos (by linarith)]
      · next => simp at h

theorem hexDigitVal_hexDigitUpper : ∀ d : ℕ, d < 16 → hexDigitVal (hexDigitUpper d) = some d := by
  decide

theorem hexDigitUpper_plain : ∀ d : ℕ, d < 16 →
    isUpperHexDigit (hexDigitUpper d) = true ∧ isPySpace (hexDigitUpper d) = false ∧
      hexDigitUpper d ≠ '-' ∧ hexDigitUpper d ≠ '+' ∧ hexDigitUpper d ≠ '_' ∧
      hexDigitUpper d ≠ 'x' ∧ hexDigitUpper d ≠ 'X' := by
  decide

theorem parseHexCore_cons (c : Char) (cs : List Char) (acc d : ℕ) (hc : c ≠ '_')
    (hd : hexDigitVal c = some d) :
    parseHexCore (c :: cs) acc = parseHexCore cs (16 * acc + d) := by
  rw [parseHexCore.eq_def]
  simp only [hc, if_false, hd]

/-- A digit `d < 16` parses through `parseHexCore` as a digit step. -/
theorem parseHexCore_cons_upper (d : ℕ) (cs : List Char) (acc : ℕ) (h : d < 16) :
    parseHexCore (hexDigitUpper d :: cs) acc = parseHexCore cs (16 * acc + d) :=
  parseHexCore_cons _ _ _ _ (hexDigitUpper_plain d h).2.2.2.2.1
    (hexDigitVal_hexDigitUpper d h)

theorem stripHexMarker_no_x (c0 c1 : Char) (cs : List Char) (hx : c1 ≠ 'x')
    (hX : c1 ≠ 'X') : stripHexMarker (c0 :: c1 :: cs) = c0 :: c1 :: cs := by
  rw [stripHexMarker.eq_def]
  simp [hx, hX]

theorem parseHexCore_nil (acc : ℕ) : parseHexCore [] acc = some acc := rfl

theorem parseHexStart_cons (c : Char) (cs : List Char) (d : ℕ)
    (hd : hexDigitVal c = some d) : parseHexStart (c :: cs) = parseHexCore cs d := by
  rw [parseHexStart.eq_def]
  simp only [hd]

theorem pyIntSigned_cons_plain (c : Char) (cs : List Char) (hm : c ≠ '-') (hp : c ≠ '+') :
    pyIntSigned (c :: cs) =
      (parseHexStart (stripHexMarker (c :: cs))).map (fun n => (n : ℤ)) := by
  rw [pyIntSigned.eq_def]
  simp only [hm, hp, if_false]

theorem list_reverse6 {α : Type} (a b c d e f : α) :
    ([a, b, c, d, e, f] : List α).reverse = [f, e, d, c, b, a] := rfl

theorem ICAOAddress.str_data (v : ℕ) :
    (ICAOAddress.str ⟨v⟩).data = [hexDigitUpper (v / 1048576 % 16),
      hexDigitUpper (v / 65536 % 16), hexDigitUpper (v / 4096 % 16),
      hexDigitUpper (v / 256 % 16), hexDigitUpper (v / 16 % 16),
      hexDigitUpper (v % 16)] := rfl

/-- `int(·, 16)` inverts `f"{v:06X}"` on the address range. -/
theorem pyIntBase16_str (v : ℕ) (hv : v < 16 ^ 6) :
    pyIntBase16 (ICAOAddress.str ⟨v⟩) = some (v : ℤ) := by
  have h5 : v / 1048576 % 16 < 16 := Nat.mod_lt _ (by norm_num)
  have h4 : v / 65536 % 16 < 16 := Nat.mod_lt _ (by norm_num)
  have h3 : v / 4096 % 16 < 16 := Nat.mod_lt _ (by norm_num)
  have h2 : v / 256 % 16 < 16 := Nat.mod_lt _ (by norm_num)
  have h1 : v / 16 % 16 < 16 := Nat.mod_lt _ (by norm_num)
  have h0 : v % 16 < 16 := Nat.mod_lt _ (by norm_num)
  have p5 := hexDigitUpper_plain _ h5
  have p4 := hexDigitUpper_plain _ h4
  have p0 := hexDigitUpper_plain _ h0
  rw [pyIntBase16, ICAOAddress.str_data,
    List.dropWhile_cons_of_neg (by simp [p5.2.1]), list_reverse6,
    List.dropWhile_cons_of_neg (by simp [p0.2.1]), list_reverse6,
    pyIntSigned_cons_plain _ _ p5.2.2.1 p5.2.2.2.1,
    stripHexMarker_no_x _ _ _ p4.2.2.2.2.2.1 p4.2.2.2.2.2.2,
    parseHexStart_cons _ _ _ (hexDigitVal_hexDigitUpper _ h5),
    parseHexCore_cons_upper _ _ _ h4, parseHexCore_cons_upper _ _ _ h3,
    parseHexCore_cons_upper _ _ _ h2, parseHexCore_cons_upper _ _ _ h1,
    parseHexCore_cons_upper _ _ _ h0, parseHexCore_nil]
  have harith : 16 * (16 * (16 * (16 * (16 * (v / 1048576 % 16) + v / 65536 % 16)
      + v / 4096 % 16) + v / 256 % 16) + v / 16 % 16) + v % 16 = v := by omega
  rw [harith]
  simp

/-- C5: for every integer `v` in `[0, 2^24 - 1]`, the address constructed from
`v` equals the address constructed from its six-hex-digit uppercase string
form, and that string form is exactly six uppercase hexadecimal characters
(`v = 0` gives `"000000"`, `v = 0xABCDEF` gives `"ABCDEF"`); constructing an
address from any integer outside `[0, 2^24 - 1]` fails. -/
theorem C5_icao_address_roundtrip :
    (∀ v : ℤ, 0 ≤ v → v ≤ (ICAOAddress.MAX : ℤ) →
      ∃ a : ICAOAddress, ICAOAddress.fromValue v = some a ∧
        ICAOAddress.fromString a.str = some a ∧
        a.str.length = 6 ∧ a.str.data.all isUpperHexDigit = true) ∧
    (ICAOAddress.fromValue 0).map ICAOAddress.str = some "000000" ∧
    (ICAOAddress.fromValue 0xABCDEF).map ICAOAddress.str = some "ABCDEF" ∧
    (∀ v : ℤ, v < 0 ∨ (ICAOAddress.MAX : ℤ) < v → ICAOAddress.fromValue v = none) := by
  refine ⟨?_, by decide, by decide, ?_⟩
  · intro v hv0 hvM
    have hMAX : (ICAOAddress.MAX : ℤ) = 16777215 := by decide
    have hvN : v.toNat < 16 ^ 6 := by omega
    have hself : ICAOAddress.fromValue v = some ⟨v.toNat⟩ := by
      unfold ICAOAddress.fromValue
      rw [if_pos ⟨by simpa [ICAOAddress.MIN] using hv0, hvM⟩]
    refine ⟨⟨v.toNat⟩, hself, ?_, rfl, ?_⟩
    · unfold ICAOAddress.fromString
      rw [pyIntBase16_str _ hvN, Option.some_bind]
      unfold ICAOAddress.fromValue
      rw [if_pos ⟨by simp [ICAOAddress.MIN], by omega⟩, Int.toNat_natCast]
    · have b5 : v.toNat / 1048576 % 16 < 16 := Nat.mod_lt _ (by norm_num)
      have b4 : v.toNat / 65536 % 16 < 16 := Nat.mod_lt _ (by norm_num)
      have b3 : v.toNat / 4096 % 16 < 16 := Nat.mod_lt _ (by norm_num)
      have b2 : v.toNat / 256 % 16 < 16 := Nat.mod_lt _ (by norm_num)
      have b1 : v.toNat / 16 % 16 < 16 := Nat.mod_lt _ (by norm_num)
      have b0 : v.toNat % 16 < 16 := Nat.mod_lt _ (by norm_num)
      rw [ICAOAddress.str_data]
      simp [List.all, (hexDigitUpper_plain _ b5).1, (hexDigitUpper_plain _ b4).1,
        (hexDigitUpper_plain _ b3).1, (hexDigitUpper_plain _ b2).1,
        (hexDigitUpper_plain _ b1).1, (hexDigitUpper_plain _ b0).1]
  · intro v hv
    unfold ICAOAddress.fromValue
    rw [if_neg]
    intro ⟨hlo, hhi⟩
    rcases hv with hv | hv
    · exact absurd (le_trans (by decide) hlo) (not_le.mpr hv)
    · exact absurd hhi (not_le.mpr hv)

/-- Witness for C5 at the concrete inputs `v = 0xABCDEF` and `v = 2^24`. -/
theorem C5_icao_address_roundtrip_witness :
    (∃ a : ICAOAddress, ICAOAddress.fromValue 0xABCDEF = some a ∧
      ICAOAddress.fromString a.str = some a ∧
      a.str.length = 6 ∧ a.str.data.all isUpperHexDigit = true) ∧
    ICAOAddress.fromValue 16777216 = none :=
  ⟨C5_icao_address_roundtrip.1 0xABCDEF (by norm_num) (by decide),
    C5_icao_address_roundtrip.2.2.2 16777216 (Or.inr (by decide))⟩

/-- C10: `ICAOAddress.__eq__` never raises: comparison against a string that
fails to parse as hexadecimal returns `False` (the `ValueError` is caught),
and comparison against anything that is not an address, an `int` or a `str`
returns `False`.  The embedding `ICAOAddress.beq` is a total `Bool`-valued
function — each application evaluates to `true` or `false`, never an
exception. -/
theorem C10_icao_eq_never_raises :
    (∀ (a : ICAOAddress) (s : String), pyIntBase16 s = none →
      a.beq (PyValue.str s) = false) ∧
    (∀ a : ICAOAddress, a.beq PyValue.other = false) ∧
    (∀ (a : ICAOAddress) (o : PyValue), a.beq o = true ∨ a.beq o = false) := by
  refine ⟨?_, fun a => rfl, fun a o => Bool.eq_false_or_eq_true _⟩
  intro a s hs
  simp only [ICAOAddress.beq, hs]

/-- Witness for C10 at the unparseable string `"not hex"`. -/
theorem C10_icao_eq_never_raises_witness :
    pyIntBase16 "not hex" = none ∧
      ICAOAddress.beq ⟨0xABCDEF⟩ (PyValue.str "not hex") = false :=
  ⟨by decide, C10_icao_eq_never_raises.1 ⟨0xABCDEF⟩ "not hex" (by decide)⟩

/-- C2 counterexample: the claim "the value is present iff `e < d`" fails at
the boundary `e = d`.  `ExpiringValue.get` tests `time.time() > expires_after`
strictly, so with TTL `d = 1`, a value set at `t = 0` is still returned at
`t = 1` (elapsed `e = 1`), although `e < d` is false there. -/
theorem C2_expiring_value_boundary_counterexample :
    ((ExpiringValue.init ℕ 1).set 0 (some 42)).get 1 = some 42 ∧ ¬ ((1 : ℚ) < 1) := by
  refine ⟨?_, by norm_num⟩
  rw [ExpiringValue.get_set, if_neg (by norm_num [ExpiringValue.init])]

/-- C2 (amended): for every expiring value configured with TTL `d > 0`,
immediately after `set(v)` `get()` returns `v`; for elapsed time `e ≥ 0` since
the last set, the value is present iff `e ≤ d` and absent iff `d < e` (so it
is absent after elapsing strictly more than `d`); `get` is a total function
and never throws. -/
theorem C2_expiring_value_ttl (T : Type) (ev : ExpiringValue T) (v : T) (t e : ℚ)
    (hd : 0 < ev.expirySecs) (he : 0 ≤ e) :
    ((ev.set t (some v)).get t = some v) ∧
    ((ev.set t (some v)).get (t + e) = some v ↔ e ≤ ev.expirySecs) ∧
    ((ev.set t (some v)).get (t + e) = none ↔ ev.expirySecs < e) := by
  rw [ExpiringValue.get_set, ExpiringValue.get_set]
  refine ⟨by rw [if_neg (by linarith)], ?_, ?_⟩
  · split_ifs with h
    · exact iff_of_false (by simp) (by linarith)
    · exact iff_of_true rfl (by linarith)
  · split_ifs with h
    · exact iff_of_true rfl (by linarith)
    · exact iff_of_false (by simp) (by linarith)

/-- Witness for C2 at TTL `d = 2`, `t = 0`, elapsed `e = 1`. -/
theorem C2_expiring_value_ttl_witness :
    (0 : ℚ) < (ExpiringValue.init ℕ 2).expirySecs ∧ (0 : ℚ) ≤ 1 ∧
      (((ExpiringValue.init ℕ 2).set 0 (some 7)).get (0 + 1) = some 7 ↔
        (1 : ℚ) ≤ (ExpiringValue.init ℕ 2).expirySecs) :=
  ⟨by norm_num [ExpiringValue.init], by norm_num,
    (C2_expiring_value_ttl ℕ (ExpiringValue.init ℕ 2) 7 0 1
      (by norm_num [ExpiringValue.init]) (by norm_num)).2.1⟩

theorem PositionState.cprGet_zero (s : PositionState) (now : Time) (a : Addr) :
    s.cprGet 0 now a = s.priorCprMsgsEven.get now a := rfl

theorem PositionState.cprGet_one (s : PositionState) (now : Time) (a : Addr) :
    s.cprGet 1 now a = s.priorCprMsgsOdd.get now a := rfl

theorem PositionState.cprSet_zero (s : PositionState) (now : Time) (a : Addr)
    (v : ℤ × String) : s.cprSet 0 now a v =
      { s with priorCprMsgsEven := s.priorCprMsgsEven.set now a v } := rfl

theorem PositionState.cprSet_one (s : PositionState) (now : Time) (a : Addr)
    (v : ℤ × String) : s.cprSet 1 now a v =
      { s with priorCprMsgsOdd := s.priorCprMsgsOdd.set now a v } := rfl

/-- `locate` with no unexpired reference position and no unexpired
complementary pending message: the message is stored in its own parity slot
and no position is returned. -/
theorem PositionState.locate_pending (pm : PyAdsb) (s : PositionState) (now : Time)
    (a : Addr) (msg : String) (href : s.priorPositions.get now a = none)
    (hopp : s.cprGet (pm.oeFlag msg ^^^ 1) now a = none) :
    s.locate pm now a msg =
      .ok (none, s.cprSet (pm.oeFlag msg) now a (pyRound now, msg)) := by
  simp only [PositionState.locate, PositionState.positionFromCprPair, href, hopp]

/-- `locate` with no unexpired reference position but an unexpired
complementary pending message, when the pyModeS global resolution succeeds:
the resolved position is returned and stored as the new reference. -/
theorem PositionState.locate_resolve (pm : PyAdsb) (s : PositionState) (now : Time)
    (a : Addr) (msg pmsg : String) (pts : ℤ) (ll : ℤ × ℤ)
    (href : s.priorPositions.get now a = none)
    (hprior : s.cprGet (pm.oeFlag msg ^^^ 1) now a = some (pts, pmsg))
    (hpos : pm.position (cprOrder (pm.oeFlag msg) msg (pyRound now) pmsg pts).1
      (cprOrder (pm.oeFlag msg) msg (pyRound now) pmsg pts).2.1
      (cprOrder (pm.oeFlag msg) msg (pyRound now) pmsg pts).2.2.1
      (cprOrder (pm.oeFlag msg) msg (pyRound now) pmsg pts).2.2.2
      s.receiverLatitude s.receiverLongitude = .ok (some ll)) :
    s.locate pm now a msg = .ok (some (Position.fromLatLon ll),
      { s with priorPositions := s.priorPositions.set now a (Position.fromLatLon ll) }) := by
  simp only [PositionState.locate, PositionState.positionFromCprPair, href, hprior, hpos]

/-- C1: for an address with no unexpired reference position and fresh parity
slots, a complementary CPR pair arriving within the 10-second pairing TTL
resolves on the second `locate` call: the first call returns no position and
stores its message in its own parity slot; the second call returns the
globally resolved position and stores it as the new reference position. -/
theorem C1_cpr_pair_resolves (pm : PyAdsb) (s : PositionState) (a : Addr)
    (m1 m2 : String) (t1 t2 : Time) (p : ℕ) (hp : p < 2)
    (hP : s.priorPositions.expirySecs = 648)
    (hE10 : s.priorCprMsgsEven.expirySecs = 10)
    (hO10 : s.priorCprMsgsOdd.expirySecs = 10)
    (hf1 : pm.oeFlag m1 = p) (hf2 : pm.oeFlag m2 = p ^^^ 1)
    (hle : t1 ≤ t2) (httl : t2 - t1 ≤ 10)
    (href : s.priorPositions.get t1 a = none)
    (hev : s.priorCprMsgsEven.get t1 a = none)
    (hod : s.priorCprMsgsOdd.get t1 a = none)
    (ll : ℤ × ℤ)
    (hglobal :
      pm.position (cprOrder (p ^^^ 1) m2 (pyRound t2) m1 (pyRound t1)).1
        (cprOrder (p ^^^ 1) m2 (pyRound t2) m1 (pyRound t1)).2.1
        (cprOrder (p ^^^ 1) m2 (pyRound t2) m1 (pyRound t1)).2.2.1
        (cprOrder (p ^^^ 1) m2 (pyRound t2) m1 (pyRound t1)).2.2.2
        s.receiverLatitude s.receiverLongitude = .ok (some ll)) :
    ∃ s1, s.locate pm t1 a m1 = .ok (none, s1) ∧
      s1.cprGet p t1 a = some (pyRound t1, m1) ∧
      ∃ s2, s1.locate pm t2 a m2 = .ok (some (Position.fromLatLon ll), s2) ∧
        s2.priorPositions.get t2 a = some (Position.fromLatLon ll) := by
  have h10 : ¬ ((10 : ℚ) < t2 - t1) := not_lt.mpr httl
  have h00 : ¬ ((10 : ℚ) < t1 - t1) := by norm_num
  interval_cases p
  · -- even message first
    have hfirst := PositionState.locate_pending pm s t1 a m1 href
      (by rw [hf1]; show s.priorCprMsgsOdd.get t1 a = none; exact hod)
    rw [hf1, PositionState.cprSet_zero] at hfirst
    refine ⟨_, hfirst, ?_, ?_⟩
    · show (s.priorCprMsgsEven.set t1 a (pyRound t1, m1)).get t1 a = _
      rw [LeakyDictionary.get_set_self, hE10, if_neg h00]
    · have hrefs1 :
          ({ s with priorCprMsgsEven := s.priorCprMsgsEven.set t1 a (pyRound t1, m1)
            } : PositionState).priorPositions.get t2 a = none :=
        LeakyDictionary.get_none_mono _ _ _ _ href hle
      have hprior1 : ({ s with
            priorCprMsgsEven := s.priorCprMsgsEven.set t1 a (pyRound t1, m1)
          } : PositionState).cprGet (pm.oeFlag m2 ^^^ 1) t2 a = some (pyRound t1, m1) := by
        rw [hf2]
        show (s.priorCprMsgsEven.set t1 a (pyRound t1, m1)).get t2 a = _
        rw [LeakyDictionary.get_set_self, hE10, if_neg h10]
      have hsecond := PositionState.locate_resolve pm
        { s with priorCprMsgsEven := s.priorCprMsgsEven.set t1 a (pyRound t1, m1) }
        t2 a m2 m1 (pyRound t1) ll hrefs1 hprior1 (by rw [hf2]; exact hglobal)
      refine ⟨_, hsecond, ?_⟩
      show (s.priorPositions.set t2 a (Position.fromLatLon ll)).get t2 a = _
      rw [LeakyDictionary.get_set_self, hP, if_neg (by norm_num)]
  · -- odd message first
    have hfirst := PositionState.locate_pending pm s t1 a m1 href
      (by rw [hf1]; show s.priorCprMsgsEven.get t1 a = none; exact hev)
    rw [hf1, PositionState.cprSet_one] at hfirst
    refine ⟨_, hfirst, ?_, ?_⟩
    · show (s.priorCprMsgsOdd.set t1 a (pyRound t1, m1)).get t1 a = _
      rw [LeakyDictionary.get_set_self, hO10, if_neg h00]
    · have hrefs1 :
          ({ s with priorCprMsgsOdd := s.priorCprMsgsOdd.set t1 a (pyRound t1, m1)
            } : PositionState).priorPositions.get t2 a = none :=
        LeakyDictionary.get_none_mono _ _ _ _ href hle
      have hprior1 : ({ s with
            priorCprMsgsOdd := s.priorCprMsgsOdd.set t1 a (pyRound t1, m1)
          } : PositionState).cprGet (pm.oeFlag m2 ^^^ 1) t2 a = some (pyRound t1, m1) := by
        rw [hf2]
        show (s.priorCprMsgsOdd.set t1 a (pyRound t1, m1)).get t2 a = _
        rw [LeakyDictionary.get_set_self, hO10, if_neg h10]
      have hsecond := PositionState.locate_resolve pm
        { s with priorCprMsgsOdd := s.priorCprMsgsOdd.set t1 a (pyRound t1, m1) }
        t2 a m2 m1 (pyRound t1) ll hrefs1 hprior1 (by rw [hf2]; exact hglobal)
      refine ⟨_, hsecond, ?_⟩
      show (s.priorPositions.set t2 a (Position.fromLatLon ll)).get t2 a = _
      rw [LeakyDictionary.get_set_self, hP, if_neg (by norm_num)]

/-- Witness for C1: a concrete even/odd pair one second apart on a fresh
state. -/
theorem C1_cpr_pair_resolves_witness :
    ∃ s1, (PositionState.init none).locate c1Oracle 0 0xABC123 "E0" = .ok (none, s1) ∧
      s1.cprGet 0 0 0xABC123 = some (pyRound 0, "E0") ∧
      ∃ s2, s1.locate c1Oracle 1 0xABC123 "O1" =
          .ok (some (Position.fromLatLon (5, 6)), s2) ∧
        s2.priorPositions.get 1 0xABC123 = some (Position.fromLatLon (5, 6)) :=
  C1_cpr_pair_resolves c1Oracle (PositionState.init none) 0xABC123 "E0" "O1" 0 1 0
    (by norm_num) rfl rfl rfl (by decide) (by decide) (by norm_num) (by norm_num)
    rfl rfl rfl (5, 6) rfl

/-- C6: a type-code-19 message decodes to an airborne-velocity message exactly
when the velocity subtype is ground speed (`"GS"`) and all three of ground
speed, track and vertical speed are present; when the subtype differs or any
field is absent, decoding fails with a `DecodingError`. -/
theorem C6_velocity_requires_gs_and_all_fields (a : Addr) (icaoRes : Except String Addr)
    (velocity : Option VelocityTuple) (hicao : icaoRes = .ok a) :
    ((∃ m, airborneVelocityFromHex icaoRes velocity = .ok m) ↔
      (∃ gs trk vs, velocity = some ⟨some gs, some trk, some vs, "GS"⟩)) ∧
    ((¬ ∃ gs trk vs, velocity = some ⟨some gs, some trk, some vs, "GS"⟩) →
      ∃ e, airborneVelocityFromHex icaoRes velocity = .error e) := by
  subst hicao
  constructor
  · constructor
    · rintro ⟨m, hm⟩
      match velocity with
      | none => simp [airborneVelocityFromHex] at hm
      | some ⟨sp, tr, vs, ty⟩ =>
          by_cases hty : ty = "GS"
          · subst hty
            match sp with
            | none => simp [airborneVelocityFromHex] at hm
            | some gs =>
                match tr with
                | none => simp [airborneVelocityFromHex] at hm
                | some trk =>
                    match vs with
                    | none => simp [airborneVelocityFromHex] at hm
                    | some v => exact ⟨gs, trk, v, rfl⟩
          · simp [airborneVelocityFromHex, hty] at hm
    · rintro ⟨gs, trk, vs, rfl⟩
      exact ⟨.adsbAirborneVelocity a gs trk vs, by simp [airborneVelocityFromHex, Except.map]⟩
  · intro hno
    match velocity with
    | none => exact ⟨_, rfl⟩
    | some ⟨sp, tr, vs, ty⟩ =>
        by_cases hty : ty = "GS"
        · subst hty
          match sp with
          | none => exact ⟨"airborne velocity message is missing ground speed",
              by simp [airborneVelocityFromHex]⟩
          | some gs =>
              match tr with
              | none => exact ⟨"airborne velocity message is missing track",
                  by simp [airborneVelocityFromHex]⟩
              | some trk =>
                  match vs with
                  | none => exact ⟨"airborne velocity message is missing vertical speed",
                      by simp [airborneVelocityFromHex]⟩
                  | some v => exact absurd ⟨gs, trk, v, rfl⟩ hno
        · exact ⟨"airborne velocity message is not ground speed",
            by simp [airborneVelocityFromHex, hty]⟩

/-- Witness for C6: a complete ground-speed tuple decodes; a track-less tuple
fails. -/
theorem C6_velocity_requires_gs_and_all_fields_witness :
    ((∃ m, airborneVelocityFromHex (.ok 0xA1B2C3)
        (some ⟨some 450, some 90, some (-64), "GS"⟩) = .ok m) ↔
      (∃ gs trk vs, (some ⟨some 450, some 90, some (-64), "GS"⟩ : Option VelocityTuple) =
        some ⟨some gs, some trk, some vs, "GS"⟩)) ∧
    (∃ e, airborneVelocityFromHex (.ok 0xA1B2C3)
      (some ⟨some 450, none, some (-64), "GS"⟩) = .error e) :=
  ⟨(C6_velocity_requires_gs_and_all_fields 0xA1B2C3 _ _ rfl).1,
    (C6_velocity_requires_gs_and_all_fields 0xA1B2C3 _
      (some ⟨some 450, none, some (-64), "GS"⟩) rfl).2 (by simp)⟩

theorem Correlator.step_msg_existing (c : Correlator) (now : Time) (a : Addr)
    (ac : Aircraft) (m : ModeSMessage) (ha : (QueueItem.msg m).icaoAddress = some a)
    (h : c.aircraft.get now a = some ac) :
    c.step now (.msg m) = ({ c with aircraft := c.aircraft.set now a (ac.merge now m) },
      none) := by
  unfold Correlator.step
  simp only [ha, h]

/-- Re-reading the live table right after `self.aircraft[addr] = aircraft`
returns the stored aircraft (the inactivity window `10` is nonnegative). -/
theorem Correlator.get_after_set (c : Correlator) (now : Time) (a : Addr) (ac : Aircraft)
    (hx : c.aircraft.expirySecs = Correlator.aircraftExpirySecs) :
    (c.aircraft.set now a ac).get now a = some ac := by
  rw [LeakyDictionary.get_set_self, hx]
  norm_num [Correlator.aircraftExpirySecs]

/-- C3: a correlator step that merges an airborne-position message into a live
Aircraft record writes altitude only when the altitude reference is barometric
(a GNSS-referenced message leaves the altitude slot untouched) while the
position slot is always set; a step that merges a variable-format (Comm-B)
reply writes exactly the subset of {altitude, squawk, callsign} present in the
message and leaves every other field unchanged. -/
theorem C3_merge_airborne_position_and_commb (c : Correlator) (now : Time) (a : Addr)
    (ac : Aircraft) (hx : c.aircraft.expirySecs = Correlator.aircraftExpirySecs)
    (h : c.aircraft.get now a = some ac) :
    (∀ (alt : ℤ) (ty : AltitudeType) (pos : Option (ℤ × ℤ)),
      ∃ ac', (c.step now (.msg (.adsbAirbornePosition a alt ty pos))).2 = none ∧
        (c.step now (.msg (.adsbAirbornePosition a alt ty pos))).1.aircraft.get now a
          = some ac' ∧
        ac'.position = ac.position.set now pos ∧
        ac'.altitude = (if ty = AltitudeType.baroPressure
          then ac.altitude.set now (some alt) else ac.altitude) ∧
        ac'.callsign = ac.callsign ∧ ac'.squawk = ac.squawk ∧
        ac'.groundSpeed = ac.groundSpeed ∧ ac'.track = ac.track ∧
        ac'.verticalSpeed = ac.verticalSpeed ∧ ac'.flightPlan = ac.flightPlan) ∧
    (∀ (alt : Option ℤ) (code cs : Option String),
      ∃ ac', (c.step now (.msg (.commBReply a alt code cs))).2 = none ∧
        (c.step now (.msg (.commBReply a alt code cs))).1.aircraft.get now a = some ac' ∧
        ac'.altitude = (match alt with
          | some a2 => ac.altitude.set now (some a2) | none => ac.altitude) ∧
        ac'.squawk = (match code with
          | some c2 => ac.squawk.set now (some c2) | none => ac.squawk) ∧
        ac'.callsign = (match cs with
          | some c3 => ac.callsign.set now (some c3) | none => ac.callsign) ∧
        ac'.position = ac.position ∧ ac'.groundSpeed = ac.groundSpeed ∧
        ac'.track = ac.track ∧ ac'.verticalSpeed = ac.verticalSpeed ∧
        ac'.flightPlan = ac.flightPlan) := by
  constructor
  · intro alt ty pos
    refine ⟨ac.merge now (.adsbAirbornePosition a alt ty pos), ?_, ?_, ?_⟩
    · rw [Correlator.step_msg_existing c now a ac (.adsbAirbornePosition a alt ty pos) rfl h]
    · rw [Correlator.step_msg_existing c now a ac (.adsbAirbornePosition a alt ty pos) rfl h]
      exact Correlator.get_after_set c now a _ hx
    · cases ty <;> simp [Aircraft.merge]
  · intro alt code cs
    refine ⟨ac.merge now (.commBReply a alt code cs), ?_, ?_, ?_⟩
    · rw [Correlator.step_msg_existing c now a ac (.commBReply a alt code cs) rfl h]
    · rw [Correlator.step_msg_existing c now a ac (.commBReply a alt code cs) rfl h]
      exact Correlator.get_after_set c now a _ hx
    · cases alt <;> cases code <;> cases cs <;> simp [Aircraft.merge]

/-- Witness for C3: a GNSS-referenced position message with unresolved
position merged into a live aircraft record. -/
theorem C3_merge_airborne_position_and_commb_witness :
    ∃ ac' : Aircraft, (c3State.step
        0 (.msg (.adsbAirbornePosition 0xAB0001 37000 AltitudeType.gnss none))).2 = none ∧
      ac'.altitude = (Aircraft.init 0xAB0001).altitude ∧
      ac'.position = (Aircraft.init 0xAB0001).position.set 0 none := by
  have hget : c3State.aircraft.get 0 0xAB0001 = some (Aircraft.init 0xAB0001) :=
    Correlator.get_after_set Correlator.init 0 0xAB0001 (Aircraft.init 0xAB0001) rfl
  obtain ⟨ac', herr, _hback, hpos, halt, _⟩ :=
    (C3_merge_airborne_position_and_commb c3State 0 0xAB0001 (Aircraft.init 0xAB0001)
      rfl hget).1 37000 AltitudeType.gnss none
  refine ⟨ac', herr, ?_, hpos⟩
  rw [halt]
  simp

/-- C9: `ExpiringValue.set(None)` makes `get` return `None` immediately, at any
later read instant and regardless of the TTL; consequently a correlator step
merging an airborne-position message whose position is unresolved (`None`)
overwrites a still-unexpired stored position with an absent value. -/
theorem C9_unresolved_position_clears_stored (c : Correlator) (now : Time) (a : Addr)
    (ac : Aircraft) (p : ℤ × ℤ)
    (hx : c.aircraft.expirySecs = Correlator.aircraftExpirySecs)
    (h : c.aircraft.get now a = some ac)
    (hpos : ac.position.get now = some p) :
    (∀ (T : Type) (ev : ExpiringValue T) (t u : Time), (ev.set t none).get u = none) ∧
    (∀ (alt : ℤ) (ty : AltitudeType),
      ∃ ac', (c.step now (.msg (.adsbAirbornePosition a alt ty none))).2 = none ∧
        (c.step now (.msg (.adsbAirbornePosition a alt ty none))).1.aircraft.get now a
          = some ac' ∧
        ac'.position.get now = none) := by
  refine ⟨fun T ev t u => ExpiringValue.get_set_none ev t u, fun alt ty => ?_⟩
  refine ⟨ac.merge now (.adsbAirbornePosition a alt ty none), ?_, ?_, ?_⟩
  · rw [Correlator.step_msg_existing c now a ac (.adsbAirbornePosition a alt ty none) rfl h]
  · rw [Correlator.step_msg_existing c now a ac (.adsbAirbornePosition a alt ty none) rfl h]
    exact Correlator.get_after_set c now a _ hx
  · have : (ac.merge now (.adsbAirbornePosition a alt ty none)).position =
        ac.position.set now none := by
      cases ty <;> simp [Aircraft.merge]
    rw [this, ExpiringValue.get_set_none]

/-- Witness for C9: the still-unexpired stored position `(1, 2)` is cleared by
a position-less airborne-position message. -/
theorem C9_unresolved_position_clears_stored_witness :
    ∃ ac', (c9State.step 0
        (.msg (.adsbAirbornePosition 0xAB0002 37000 AltitudeType.baroPressure none))).2
        = none ∧
      (c9State.step 0
        (.msg (.adsbAirbornePosition 0xAB0002 37000 AltitudeType.baroPressure none))).1.aircraft.get
          0 0xAB0002 = some ac' ∧
      ac'.position.get 0 = none := by
  have hget : c9State.aircraft.get 0 0xAB0002 = some c9Aircraft :=
    Correlator.get_after_set Correlator.init 0 0xAB0002 c9Aircraft rfl
  have hpos : c9Aircraft.position.get 0 = some (1, 2) := by
    show ((Aircraft.init 0xAB0002).position.set 0 (some (1, 2))).get 0 = some (1, 2)
    rw [ExpiringValue.get_set]
    norm_num [Aircraft.init, ExpiringValue.init, Aircraft.defaultExpirySecs]
  exact (C9_unresolved_position_clears_stored c9State 0 0xAB0002 c9Aircraft (1, 2)
    rfl hget hpos).2 37000 AltitudeType.baroPressure

/-- C4 (code bug): processing a flight-plan record that carries an ICAO
address never stores it in the side table.  `Correlator.__init__` defines the
side table as `self.flights`, but `step` writes `self.flight_plans`, an
attribute that does not exist, so the store raises `AttributeError` (for a
previously-unseen address the step raises even earlier, while seeding the new
Aircraft record).  On a fresh correlator the concrete flight record leaves the
state unchanged and raises. -/
theorem C4_flight_plan_store_raises :
    (Correlator.init.step 0 (.flight c4Flight) =
      (Correlator.init, some (PyError.attributeError "flight_plans"))) ∧
    (∀ (c : Correlator) (now : Time) (f : Flight) (a : Addr), f.icaoAddress = some a →
      (c.step now (.flight f)).2 = some (PyError.attributeError "flight_plans") ∧
      (c.step now (.flight f)).1.flights = c.flights) := by
  refine ⟨rfl, fun c now f a ha => ?_⟩
  unfold Correlator.step
  rw [show (QueueItem.flight f).icaoAddress = some a from ha]
  rcases hga : c.aircraft.get now a with _ | ac
  · simp [hga]
  · simp [hga]

/-- Witness for C4 at the concrete flight record on a fresh correlator. -/
theorem C4_flight_plan_store_raises_witness :
    (Correlator.init.step 0 (.flight c4Flight)).2 =
        some (PyError.attributeError "flight_plans") ∧
      (Correlator.init.step 0 (.flight c4Flight)).1.flights = [] :=
  C4_flight_plan_store_raises.2 Correlator.init 0 c4Flight 0xA00001 rfl

/-- C7 counterexample: the live table's inactivity window
(`LeakyDictionary(10)`, 10 s) is NOT strictly longer than every field TTL of
an Aircraft record — it is strictly shorter than the 300 s callsign/squawk
TTLs and merely equal to the 10 s default TTL of the other fields. -/
theorem C7_inactivity_window_counterexample :
    Correlator.aircraftExpirySecs < Aircraft.callsignExpirySecs ∧
    Correlator.aircraftExpirySecs = Aircraft.defaultExpirySecs := by
  norm_num [Correlator.aircraftExpirySecs, Aircraft.callsignExpirySecs,
    Aircraft.defaultExpirySecs]

/-- C7 (amended): the live aircraft table's inactivity window is 10 seconds —
equal to the TTLs of altitude, position, ground speed, track and vertical
speed, and strictly shorter than the 300-second callsign and squawk TTLs. -/
theorem C7_inactivity_window_amended :
    Correlator.init.aircraft.expirySecs = 10 ∧
    (Aircraft.init 0).callsign.expirySecs = 300 ∧
    (Aircraft.init 0).squawk.expirySecs = 300 ∧
    (Aircraft.init 0).altitude.expirySecs = 10 ∧
    (Aircraft.init 0).position.expirySecs = 10 ∧
    (Aircraft.init 0).groundSpeed.expirySecs = 10 ∧
    (Aircraft.init 0).track.expirySecs = 10 ∧
    (Aircraft.init 0).verticalSpeed.expirySecs = 10 ∧
    Correlator.init.aircraft.expirySecs < (Aircraft.init 0).callsign.expirySecs ∧
    Correlator.init.aircraft.expirySecs < (Aircraft.init 0).squawk.expirySecs ∧
    Correlator.init.aircraft.expirySecs = (Aircraft.init 0).altitude.expirySecs := by
  norm_num [Correlator.init, Correlator.aircraftExpirySecs, Aircraft.init,
    Aircraft.callsignExpirySecs, Aircraft.squawkExpirySecs, Aircraft.defaultExpirySecs,
    ExpiringValue.init, LeakyDictionary.init]

/-- C8 counterexample: deduplication is keyed by the error text, not the
message text.  The two well-framed lines `*02;` and `*00;` carry different
message texts, and both fail with the same `DecodingError` text (downlink
format 0), so only the first produces a log entry — the second is suppressed,
contradicting "once per distinct message text". -/
theorem C8_dedup_counterexample :
    msgText ("*02;\n".data) ≠ msgText ("*00;\n".data) ∧
    (ingestStep (decodeDispatch c8Oracles) ⟨[]⟩ ("*02;\n".data)).2 =
      .errorLogged "dont know how to decode downlink format 0" ∧
    (ingestStep (decodeDispatch c8Oracles)
        (ingestStep (decodeDispatch c8Oracles) ⟨[]⟩ ("*02;\n".data)).1 ("*00;\n".data)).2 =
      .errorSuppressed "dont know how to decode downlink format 0" := by
  decide

/-- C8 (amended): a `DecodingError` is logged once per distinct error text
(`str(exc)`): a well-framed ASCII line whose decode failure carries an unseen
error text produces one log entry and records the text; a line whose error
text has already been logged is suppressed; in both cases the step returns
normally and the ingestion loop continues. -/
theorem C8_dedup_by_error_text (decode : List Char → Except String ModeSMessage)
    (st : IngesterState) (line : List Char) (e : String)
    (hne : line.isEmpty = false) (h1 : framingOk line = true) (ha : asciiOk line = true)
    (hd : decode (msgText line) = .error e) :
    (e ∉ st.errorsSeen →
      ingestStep decode st line = (⟨e :: st.errorsSeen⟩, .errorLogged e)) ∧
    (e ∈ st.errorsSeen →
      ingestStep decode st line = (st, .errorSuppressed e)) := by
  constructor
  · intro hnew
    simp [ingestStep, hne, h1, ha, hd, hnew]
  · intro hseen
    simp [ingestStep, hne, h1, ha, hd, hseen]

/-- Witness for C8 (amended) at the concrete line `*02;` on an empty and then
a populated seen-set. -/
theorem C8_dedup_by_error_text_witness :
    (ingestStep (decodeDispatch c8Oracles) ⟨[]⟩ ("*02;\n".data) =
      (⟨["dont know how to decode downlink format 0"]⟩,
        .errorLogged "dont know how to decode downlink format 0")) ∧
    (ingestStep (decodeDispatch c8Oracles)
        ⟨["dont know how to decode downlink format 0"]⟩ ("*02;\n".data) =
      (⟨["dont know how to decode downlink format 0"]⟩,
        .errorSuppressed "dont know how to decode downlink format 0")) :=
  ⟨(C8_dedup_by_error_text (decodeDispatch c8Oracles) ⟨[]⟩ ("*02;\n".data)
      "dont know how to decode downlink format 0" (by decide) (by decide) (by decide)
      rfl).1 (by decide),
    (C8_dedup_by_error_text (decodeDispatch c8Oracles)
      ⟨["dont know how to decode downlink format 0"]⟩ ("*02;\n".data)
      "dont know how to decode downlink format 0" (by decide) (by decide) (by decide)
      rfl).2 (by decide)⟩
end AirplaneThing
